import Mathlib

/-!
Verification of the fiscal calculation engine of a French auto-entrepreneur
invoicing and accounting application.

The definitions below are a shallow embedding of the TypeScript modules
`frontend/src/lib/socialContributions.ts` and `frontend/src/lib/taxDeclarations.ts`.
Numbers are modelled as exact rationals (the TypeScript code works in IEEE
doubles; every constant in the rate tables is an exact decimal, so the rational
semantics coincides with the intended real-number semantics). A TypeScript
function that throws is modelled as a function into `Except`. Ambient values
that the TypeScript code reads from the clock (the current year, the current
month, today) are passed as explicit arguments. JavaScript `Date` values
are modelled at day granularity.
-/

/-- Activity types of the auto-entrepreneur regime, from the union type
used throughout both modules. The TypeScript code selects rate-table
entries by string key; the embedding uses an exhaustive enumeration. -/
inductive ActivityType
  | services
  | commerce
  | liberal
  deriving DecidableEq, Repr

/-- The interface SocialContributionRates: six named contribution rates plus
their advertised total rate. -/
structure SocialContributionRates where
  maladie : ℚ
  retraite_base : ℚ
  retraite_complementaire : ℚ
  invalidite_deces : ℚ
  csg_crds : ℚ
  formation_professionnelle : ℚ
  total : ℚ
  deriving DecidableEq, Repr

/-- The constant SOCIAL_CONTRIBUTION_RATES_2024, one rate record per
activity type. -/
def SOCIAL_CONTRIBUTION_RATES_2024 : ActivityType → SocialContributionRates
  | .services =>
    { maladie := 0.065
      retraite_base := 0.1175
      retraite_complementaire := 0.007
      invalidite_deces := 0.0048
      csg_crds := 0.0262
      formation_professionnelle := 0.0025
      total := 0.221 }
  | .commerce =>
    { maladie := 0.065
      retraite_base := 0.1175
      retraite_complementaire := 0.007
      invalidite_deces := 0.0048
      csg_crds := 0.0262
      formation_professionnelle := 0.0011
      total := 0.1286 }
  | .liberal =>
    { maladie := 0.065
      retraite_base := 0.1175
      retraite_complementaire := 0.007
      invalidite_deces := 0.0048
      csg_crds := 0.0262
      formation_professionnelle := 0.0025
      total := 0.221 }

/-- The constant FRANCHISE_THRESHOLDS_2024: franchise revenue threshold per
activity type, in euros. -/
def FRANCHISE_THRESHOLDS_2024 : ActivityType → ℚ
  | .services => 77700
  | .commerce => 188700
  | .liberal => 77700

/-- The record of six contribution amounts plus total, the `contributions`
field of SocialContributionCalculation. -/
structure ContributionAmounts where
  maladie : ℚ
  retraite_base : ℚ
  retraite_complementaire : ℚ
  invalidite_deces : ℚ
  csg_crds : ℚ
  formation_professionnelle : ℚ
  total : ℚ
  deriving DecidableEq, Repr

/-- The interface SocialContributionCalculation. The `quarter` field is the
numeric quarter index (the TypeScript code renders it as the string T1..T4). -/
structure SocialContributionCalculation where
  revenue : ℚ
  activity_type : ActivityType
  rates : SocialContributionRates
  contributions : ContributionAmounts
  net_revenue : ℚ
  quarter : ℕ
  year : ℕ
  deriving DecidableEq, Repr

/-- The domain error thrown when revenue exceeds the franchise threshold.
The TypeScript code throws `new Error` whose message interpolates exactly
the threshold amount and the activity type; the embedding keeps those two
data as structure fields. -/
structure FranchiseError where
  threshold : ℚ
  activity : ActivityType
  deriving DecidableEq, Repr

/-- The function calculateSocialContributions. `year` defaults to the current
year and `currentMonth0` is the zero-based current month from
`new Date().getMonth()`; both are passed explicitly here. Throwing is
modelled by `Except.error`. -/
def calculateSocialContributions (revenue : ℚ) (activityType : ActivityType)
    (year : ℕ) (currentMonth0 : ℕ) :
    Except FranchiseError SocialContributionCalculation :=
  let rates := SOCIAL_CONTRIBUTION_RATES_2024 activityType
  let threshold := FRANCHISE_THRESHOLDS_2024 activityType
  if threshold < revenue then
    .error { threshold := threshold, activity := activityType }
  else
    let contributions : ContributionAmounts :=
      { maladie := revenue * rates.maladie
        retraite_base := revenue * rates.retraite_base
        retraite_complementaire := revenue * rates.retraite_complementaire
        invalidite_deces := revenue * rates.invalidite_deces
        csg_crds := revenue * rates.csg_crds
        formation_professionnelle := revenue * rates.formation_professionnelle
        total := revenue * rates.total }
    let net_revenue := revenue - contributions.total
    let quarter := (currentMonth0 + 1 + 2) / 3
    .ok
      { revenue := revenue
        activity_type := activityType
        rates := rates
        contributions := contributions
        net_revenue := net_revenue
        quarter := quarter
        year := year }

/-- Sum of the six per-component amounts of a contribution record (the
quantity that the specification asserts equals the `total` field). -/
def sumComponents (c : ContributionAmounts) : ℚ :=
  c.maladie + c.retraite_base + c.retraite_complementaire +
    c.invalidite_deces + c.csg_crds + c.formation_professionnelle

/-- Sum of the six per-component rates of a rate record. -/
def sumComponentRates (r : SocialContributionRates) : ℚ :=
  r.maladie + r.retraite_base + r.retraite_complementaire +
    r.invalidite_deces + r.csg_crds + r.formation_professionnelle

/-- Relative-tolerance comparison used by the specification sentence
`sum == total within 1e-9 relative tolerance`. -/
def withinRelTol (x y tol : ℚ) : Prop := |x - y| ≤ tol * |y|

/-- ACRE year, from the TypeScript parameter type 1 | 2 | 3. -/
inductive AcreYear
  | y1
  | y2
  | y3
  deriving DecidableEq, Repr

/-- The reduction rate selected by the switch statement of
calculateContributionsWithACRE: 75 percent in year 1, 50 percent in
year 2, 25 percent in year 3. -/
def acreReductionRate : AcreYear → ℚ
  | .y1 => 0.75
  | .y2 => 0.50
  | .y3 => 0.25

/-- The function calculateContributionsWithACRE: computes the standard
contributions (with the ambient current year and month, since the TypeScript
call site passes no year), then scales every component and the total by
`(1 - reductionRate)` and recomputes net revenue from the reduced total.
A franchise error thrown by the inner call propagates. -/
def calculateContributionsWithACRE (revenue : ℚ) (activityType : ActivityType)
    (acreYear : AcreYear) (year : ℕ) (currentMonth0 : ℕ) :
    Except FranchiseError SocialContributionCalculation :=
  let reductionRate := acreReductionRate acreYear
  (calculateSocialContributions revenue activityType year currentMonth0).map
    (fun standardCalculation =>
      let reducedContributions : ContributionAmounts :=
        { maladie := standardCalculation.contributions.maladie * (1 - reductionRate)
          retraite_base := standardCalculation.contributions.retraite_base * (1 - reductionRate)
          retraite_complementaire :=
            standardCalculation.contributions.retraite_complementaire * (1 - reductionRate)
          invalidite_deces :=
            standardCalculation.contributions.invalidite_deces * (1 - reductionRate)
          csg_crds := standardCalculation.contributions.csg_crds * (1 - reductionRate)
          formation_professionnelle :=
            standardCalculation.contributions.formation_professionnelle * (1 - reductionRate)
          total := standardCalculation.contributions.total * (1 - reductionRate) }
      { standardCalculation with
          contributions := reducedContributions
          net_revenue := revenue - reducedContributions.total })

/-- A JavaScript Date at day granularity: calendar year, zero-based month
(0 = January .. 11 = December), one-based day of month. -/
structure JSDate where
  year : ℕ
  month : ℕ
  day : ℕ
  deriving DecidableEq, Repr

/-- Gregorian leap-year rule, as implemented by the JavaScript Date
normalization. -/
def isLeapYear (y : ℕ) : Bool :=
  (y % 4 = 0 && y % 100 != 0) || y % 400 = 0

/-- Number of days of the zero-based month `m0` of year `y`. -/
def daysInMonth (y m0 : ℕ) : ℕ :=
  match m0 with
  | 1 => if isLeapYear y then 29 else 28
  | 3 => 30
  | 5 => 30
  | 8 => 30
  | 10 => 30
  | _ => 31

/-- The JavaScript expression `new Date(year, month, 0)`: day zero of the
(possibly out-of-range) zero-based month `month` normalizes to the last day
of the preceding month. Used by the code with `year * 12 + month ≥ 1`. -/
def jsDateDayZero (year month : ℕ) : JSDate :=
  let t := year * 12 + month - 1
  { year := t / 12, month := t % 12, day := daysInMonth (t / 12) (t % 12) }

/-- Day-granularity comparison of JavaScript dates (the code compares Date
objects, which compares their timestamps). -/
def JSDate.le (d1 d2 : JSDate) : Bool :=
  d1.year < d2.year ||
    (d1.year = d2.year &&
      (d1.month < d2.month || (d1.month = d2.month && d1.day ≤ d2.day)))

/-- The JavaScript statement `date.setFullYear(date.getFullYear() + n)`:
the year is replaced and the date renormalized, so February 29 rolls over
to March 1 when the target year is not a leap year. -/
def JSDate.addYears (d : JSDate) (n : ℕ) : JSDate :=
  let y := d.year + n
  if d.month = 1 ∧ d.day = 29 ∧ isLeapYear y = false then
    { year := y, month := 2, day := 1 }
  else
    { year := y, month := d.month, day := d.day }

/-- The reduced ACRE rate table built inside checkACREEligibility for the
eligible case (example rates for services, 50 percent reduction). -/
def acreReducedRates : SocialContributionRates :=
  { maladie := 0.0325
    retraite_base := 0.05875
    retraite_complementaire := 0.0035
    invalidite_deces := 0.0024
    csg_crds := 0.0131
    formation_professionnelle := 0.00125
    total := 0.1105 }

/-- Return shape of checkACREEligibility: the optional fields are absent in
the TypeScript object literal of the ineligible branch. -/
structure ACREEligibility where
  eligible : Bool
  expiryDate : Option JSDate
  reducedRates : Option SocialContributionRates
  deriving DecidableEq, Repr

/-- The function checkACREEligibility. `today` is the ambient current date
(`new Date()` in the code), passed explicitly. -/
def checkACREEligibility (creationDate : JSDate) (hasReceivedACRE : Bool)
    (today : JSDate) : ACREEligibility :=
  let threeYearsAfterCreation := creationDate.addYears 3
  let eligible := !hasReceivedACRE && JSDate.le today threeYearsAfterCreation
  if eligible then
    { eligible := true
      expiryDate := some threeYearsAfterCreation
      reducedRates := some acreReducedRates }
  else
    { eligible := false, expiryDate := none, reducedRates := none }

/-- Declaration lifecycle status. -/
inductive DeclStatus
  | draft
  | submitted
  | paid
  deriving DecidableEq, Repr

/-- The row inserted into quarterly_declarations by saveQuarterlyDeclaration
(user id and database-generated columns omitted). -/
structure QuarterlyDeclarationInsert where
  year : ℕ
  quarter : ℕ
  revenue : ℚ
  contributions : ℚ
  activity_type : ActivityType
  status : DeclStatus
  due_date : JSDate
  deriving DecidableEq, Repr

/-- The pure core of saveQuarterlyDeclaration: the record it inserts, with
the due date computed as `new Date(year, quarter * 3 + 1, 0)`, the last day
of the month following the quarter. -/
def saveQuarterlyDeclarationRecord (year quarter : ℕ)
    (calculation : SocialContributionCalculation) : QuarterlyDeclarationInsert :=
  let dueMonth := quarter * 3 + 1
  let dueDate := jsDateDayZero year dueMonth
  { year := year
    quarter := quarter
    revenue := calculation.revenue
    contributions := calculation.contributions.total
    activity_type := calculation.activity_type
    status := .draft
    due_date := dueDate }

/-- An income-tax bracket. `max = none` models the JavaScript `Infinity`
upper bound of the last bracket. -/
structure TaxBracket where
  min : ℚ
  max : Option ℚ
  rate : ℚ
  deriving DecidableEq, Repr

/-- The constant MICRO_ABATTEMENT_RATES: flat abatement rate per activity
type. -/
def MICRO_ABATTEMENT_RATES : ActivityType → ℚ
  | .services => 0.50
  | .commerce => 0.29
  | .liberal => 0.34

/-- The constant INCOME_TAX_BRACKETS_2024. -/
def INCOME_TAX_BRACKETS_2024 : List TaxBracket :=
  [ { min := 0, max := some 11294, rate := 0.00 }
  , { min := 11294, max := some 28797, rate := 0.11 }
  , { min := 28797, max := some 82341, rate := 0.30 }
  , { min := 82341, max := some 177106, rate := 0.41 }
  , { min := 177106, max := none, rate := 0.45 } ]

/-- The constant CFE_THRESHOLDS. -/
structure CFEThresholds where
  exemption_revenue : ℚ
  minimum_base : ℚ
  maximum_base : ℚ

def CFE_THRESHOLDS : CFEThresholds :=
  { exemption_revenue := 5000, minimum_base := 227, maximum_base := 7000 }

/-- `Math.min(ti, m)` where `m` may be `Infinity` (`none`). -/
def jsMinOpt (ti : ℚ) : Option ℚ → ℚ
  | some m => min ti m
  | none => ti

/-- One itemized line of the `tax_brackets` field of IncomeTaxData. -/
structure BracketLine where
  min : ℚ
  max : Option ℚ
  rate : ℚ
  amount : ℚ
  deriving DecidableEq, Repr

/-- The bracket loop of calculateIncomeTax: walk the brackets in order,
stop at the first bracket whose lower bound is at or above the taxable
income (the `break`), otherwise push an itemized line and accumulate
`(min(taxableIncome, bracket.max) - bracket.min) * bracket.rate`. Returns
the itemized lines and the accumulated per-part tax. -/
def bracketWalk (taxableIncome : ℚ) : List TaxBracket → List BracketLine × ℚ
  | [] => ([], 0)
  | bracket :: rest =>
    if taxableIncome ≤ bracket.min then ([], 0)
    else
      let taxableAmount := jsMinOpt taxableIncome bracket.max - bracket.min
      let taxAmount := taxableAmount * bracket.rate
      let restResult := bracketWalk taxableIncome rest
      (⟨bracket.min, bracket.max, bracket.rate, taxAmount⟩ :: restResult.1,
        taxAmount + restResult.2)

/-- The interface IncomeTaxData (the constant-string fields regime and the
micro-regime placeholders are kept as written in the source). -/
structure IncomeTaxData where
  revenue : ℚ
  expenses : ℚ
  net_result : ℚ
  activity_type : ActivityType
  abattement : ℚ
  taxable_income : ℚ
  tax_brackets : List BracketLine
  total_tax : ℚ
  deriving DecidableEq, Repr

/-- The function calculateIncomeTax: flat abatement per activity type,
quotient familial division by `parts`, bracket walk, and final
remultiplication of the bracket sum by `parts`. -/
def calculateIncomeTax (revenue : ℚ) (activityType : ActivityType)
    (parts : ℚ) : IncomeTaxData :=
  let abattementRate := MICRO_ABATTEMENT_RATES activityType
  let abattement := revenue * abattementRate
  let taxableIncome := (revenue - abattement) / parts
  let walk := bracketWalk taxableIncome INCOME_TAX_BRACKETS_2024
  { revenue := revenue
    expenses := 0
    net_result := revenue
    activity_type := activityType
    abattement := abattement
    taxable_income := taxableIncome
    tax_brackets := walk.1
    total_tax := walk.2 * parts }

def cfeExemptionReasonText : String := "Chiffre d\x27affaires inférieur à 5 000€"

/-- The interface CFEData. -/
structure CFEData where
  revenue : ℚ
  activity_type : ActivityType
  commune : String
  surface_m2 : Option ℚ
  is_exempt : Bool
  exemption_reason : Option String
  base_amount : ℚ
  tax_rate : ℚ
  total_cfe : ℚ
  deriving DecidableEq, Repr

/-- The revenue-based CFE base of the else-branch: `min(revenue * 0.005,
maximum_base)` above the 32600 breakpoint, otherwise the minimum base. -/
def cfeBaseFromRevenue (revenue : ℚ) : ℚ :=
  if 32600 < revenue then min (revenue * 0.005) CFE_THRESHOLDS.maximum_base
  else CFE_THRESHOLDS.minimum_base

/-- The function calculateCFE. The surface parameter is optional and the
TypeScript code tests it for truthiness, so an absent or zero surface falls
through to the revenue-based base. -/
def calculateCFE (revenue : ℚ) (activityType : ActivityType)
    (commune : String) (surfaceM2 : Option ℚ) : CFEData :=
  if revenue < CFE_THRESHOLDS.exemption_revenue then
    { revenue := revenue
      activity_type := activityType
      commune := commune
      surface_m2 := surfaceM2
      is_exempt := true
      exemption_reason := some cfeExemptionReasonText
      base_amount := 0
      tax_rate := 0
      total_cfe := 0 }
  else
    let baseAmount :=
      match surfaceM2 with
      | some s =>
        if s ≠ 0 then min (s * 16) CFE_THRESHOLDS.maximum_base
        else cfeBaseFromRevenue revenue
      | none => cfeBaseFromRevenue revenue
    let taxRate : ℚ := 0.25
    let totalCFE := baseAmount * taxRate
    { revenue := revenue
      activity_type := activityType
      commune := commune
      surface_m2 := surfaceM2
      is_exempt := false
      exemption_reason := none
      base_amount := baseAmount
      tax_rate := taxRate
      total_cfe := totalCFE }

/-- Claim-side restatement of the bracket sum for a refinement comparison:
the sum over all brackets whose lower bound is strictly below the taxable
income of the slice `min(taxableIncome, upperBound) - lowerBound` taxed at
the bracket rate. -/
def bracketTermSpec (taxableIncome : ℚ) (b : TaxBracket) : ℚ :=
  if taxableIncome ≤ b.min then 0
  else (jsMinOpt taxableIncome b.max - b.min) * b.rate

/-- Claim-side total of the 2024 bracket schedule. -/
def bracketSumSpec (taxableIncome : ℚ) : ℚ :=
  (INCOME_TAX_BRACKETS_2024.map (bracketTermSpec taxableIncome)).sum

/-- Commune name used for concrete evaluations (the default commune used by
the annual generation code). -/
def defaultCommune : String := "Paris"

theorem jsMinOpt_mono {t1 t2 : ℚ} (o : Option ℚ) (h : t1 ≤ t2) :
    jsMinOpt t1 o ≤ jsMinOpt t2 o := by
  cases o with
  | none => exact h
  | some m => exact min_le_min h le_rfl

theorem le_jsMinOpt {b ti : ℚ} (o : Option ℚ) (hti : b ≤ ti)
    (hmax : ∀ m ∈ o, b ≤ m) : b ≤ jsMinOpt ti o := by
  cases o with
  | none => exact hti
  | some m => exact le_min hti (hmax m rfl)

theorem bracketTermSpec_mono (b : TaxBracket) (hrate : 0 ≤ b.rate)
    (hmax : ∀ m ∈ b.max, b.min ≤ m) {t1 t2 : ℚ} (h : t1 ≤ t2) :
    bracketTermSpec t1 b ≤ bracketTermSpec t2 b := by
  unfold bracketTermSpec
  by_cases h2 : t2 ≤ b.min
  · rw [if_pos (le_trans h h2), if_pos h2]
  · by_cases h1 : t1 ≤ b.min
    · rw [if_pos h1, if_neg h2]
      exact mul_nonneg
        (sub_nonneg.mpr (le_jsMinOpt b.max (le_of_not_le h2) hmax)) hrate
    · rw [if_neg h1, if_neg h2]
      exact mul_le_mul_of_nonneg_right
        (sub_le_sub_right (jsMinOpt_mono b.max h) _) hrate

theorem bracketSumSpec_mono {t1 t2 : ℚ} (h : t1 ≤ t2) :
    bracketSumSpec t1 ≤ bracketSumSpec t2 := by
  unfold bracketSumSpec
  refine List.sum_le_sum (fun b hb => ?_)
  simp only [INCOME_TAX_BRACKETS_2024, List.mem_cons, List.not_mem_nil,
    or_false] at hb
  rcases hb with rfl | rfl | rfl | rfl | rfl <;>
    refine bracketTermSpec_mono _ (by norm_num) (fun m hm => ?_) h <;>
    simp_all <;> linarith

theorem bracketWalk_total_eq_spec (ti : ℚ) :
    (bracketWalk ti INCOME_TAX_BRACKETS_2024).2 = bracketSumSpec ti := by
  simp only [INCOME_TAX_BRACKETS_2024, bracketSumSpec, bracketTermSpec,
    bracketWalk, jsMinOpt, List.map_cons, List.map_nil, List.sum_cons,
    List.sum_nil]
  split_ifs <;> (try linarith) <;> ring

/-- C3: for every revenue ≥ 0, activity type, and parts ≥ 1,
calculateIncomeTax returns abatement = revenue × abatementRate and
taxable_income = (revenue − abatement) / parts, with abatement rates 0.50
for services, 0.29 for commerce, 0.34 for liberal, and total_tax equal to
the sum over brackets whose lower bound is below the taxable income of
`(min(taxableIncome, upperBound) − lowerBound) × rate`, multiplied by
parts; in particular calculateIncomeTax(30000, services, 1) yields
abatement 15000, taxable income 15000 and total tax 407.66. -/
theorem calculateIncomeTax_spec (revenue : ℚ) (a : ActivityType) (parts : ℚ)
    (h0 : 0 ≤ revenue) (hp : 1 ≤ parts) :
    (calculateIncomeTax revenue a parts).abattement
        = revenue * MICRO_ABATTEMENT_RATES a
    ∧ (calculateIncomeTax revenue a parts).taxable_income
        = (revenue - revenue * MICRO_ABATTEMENT_RATES a) / parts
    ∧ (calculateIncomeTax revenue a parts).total_tax
        = bracketSumSpec ((revenue - revenue * MICRO_ABATTEMENT_RATES a) / parts)
            * parts
    ∧ MICRO_ABATTEMENT_RATES .services = 0.50
    ∧ MICRO_ABATTEMENT_RATES .commerce = 0.29
    ∧ MICRO_ABATTEMENT_RATES .liberal = 0.34
    ∧ (calculateIncomeTax 30000 .services 1).abattement = 15000
    ∧ (calculateIncomeTax 30000 .services 1).taxable_income = 15000
    ∧ (calculateIncomeTax 30000 .services 1).total_tax = 407.66 := by
  refine ⟨rfl, rfl, ?_, rfl, rfl, rfl, ?_, ?_, ?_⟩
  · simp only [calculateIncomeTax]
    rw [bracketWalk_total_eq_spec]
  · norm_num [calculateIncomeTax, MICRO_ABATTEMENT_RATES]
  · norm_num [calculateIncomeTax, MICRO_ABATTEMENT_RATES]
  · norm_num [calculateIncomeTax, MICRO_ABATTEMENT_RATES,
      INCOME_TAX_BRACKETS_2024, bracketWalk, jsMinOpt, min_def]

theorem calculateIncomeTax_spec_witness :
    (calculateIncomeTax 30000 .services 1).total_tax = 407.66 :=
  (calculateIncomeTax_spec 30000 .services 1 (by norm_num)
    (by norm_num)).2.2.2.2.2.2.2.2

/-- C4: for fixed activity type and positive parts, total_tax is
monotonically non-decreasing in revenue. -/
theorem calculateIncomeTax_total_tax_monotone (a : ActivityType)
    (parts r1 r2 : ℚ) (hp : 0 < parts) (h0 : 0 ≤ r1) (h12 : r1 ≤ r2) :
    (calculateIncomeTax r1 a parts).total_tax
      ≤ (calculateIncomeTax r2 a parts).total_tax := by
  have hab : MICRO_ABATTEMENT_RATES a ≤ 1 := by
    cases a <;> norm_num [MICRO_ABATTEMENT_RATES]
  have hkey : r1 - r1 * MICRO_ABATTEMENT_RATES a
      ≤ r2 - r2 * MICRO_ABATTEMENT_RATES a := by
    nlinarith [mul_nonneg (sub_nonneg.mpr h12) (sub_nonneg.mpr hab)]
  have hti : (r1 - r1 * MICRO_ABATTEMENT_RATES a) / parts
      ≤ (r2 - r2 * MICRO_ABATTEMENT_RATES a) / parts :=
    div_le_div_of_nonneg_right hkey hp.le
  simp only [calculateIncomeTax]
  rw [bracketWalk_total_eq_spec, bracketWalk_total_eq_spec]
  exact mul_le_mul_of_nonneg_right (bracketSumSpec_mono hti) hp.le

theorem calculateIncomeTax_total_tax_monotone_witness :
    (calculateIncomeTax 10000 .services 1).total_tax
      ≤ (calculateIncomeTax 20000 .services 1).total_tax :=
  calculateIncomeTax_total_tax_monotone .services 1 10000 20000 (by norm_num)
    (by norm_num) (by norm_num)

/-- C1 counterexample: at revenue 1000 for services, the sum of the six
contribution components is 223 while the total field is 221, which is far
outside a 1e-9 relative tolerance, so `total == sum of the six components`
fails. -/
theorem calculateSocialContributions_total_vs_sum_cex :
    ((calculateSocialContributions 1000 .services 2024 0).toOption.map
        (fun res => sumComponents res.contributions)) = some 223
    ∧ ((calculateSocialContributions 1000 .services 2024 0).toOption.map
        (fun res => res.contributions.total)) = some 221
    ∧ ¬ withinRelTol 223 221 (1 / 1000000000) := by
  refine ⟨?_, ?_, ?_⟩
  · norm_num [calculateSocialContributions, SOCIAL_CONTRIBUTION_RATES_2024,
      FRANCHISE_THRESHOLDS_2024, sumComponents, Except.toOption]
  · norm_num [calculateSocialContributions, SOCIAL_CONTRIBUTION_RATES_2024,
      FRANCHISE_THRESHOLDS_2024, Except.toOption]
  · rw [withinRelTol, show (223:ℚ) - 221 = 2 by norm_num,
      show |(2:ℚ)| = 2 by rw [abs_of_nonneg] <;> norm_num,
      show |(221:ℚ)| = 221 by rw [abs_of_nonneg] <;> norm_num]
    norm_num

/-- C1 (amended): for every revenue between 0 and the franchise threshold,
calculateSocialContributions succeeds; each of the six components equals
revenue × its rate, the total equals revenue × the total rate of the rate
table, and net_revenue equals revenue − total. The total rate is NOT the
sum of the six component rates (0.223 vs 0.221 for services and liberal,
0.2216 vs 0.1286 for commerce), so the sum of the six components differs
from the total at every positive revenue. -/
theorem calculateSocialContributions_result_spec (revenue : ℚ)
    (a : ActivityType) (year currentMonth0 : ℕ) (h0 : 0 ≤ revenue)
    (h : revenue ≤ FRANCHISE_THRESHOLDS_2024 a) :
    (calculateSocialContributions revenue a year currentMonth0).toOption.isSome
        = true
    ∧ ((calculateSocialContributions revenue a year currentMonth0).toOption.map
        (fun res => res.contributions.maladie))
        = some (revenue * (SOCIAL_CONTRIBUTION_RATES_2024 a).maladie)
    ∧ ((calculateSocialContributions revenue a year currentMonth0).toOption.map
        (fun res => res.contributions.retraite_base))
        = some (revenue * (SOCIAL_CONTRIBUTION_RATES_2024 a).retraite_base)
    ∧ ((calculateSocialContributions revenue a year currentMonth0).toOption.map
        (fun res => res.contributions.retraite_complementaire))
        = some (revenue * (SOCIAL_CONTRIBUTION_RATES_2024 a).retraite_complementaire)
    ∧ ((calculateSocialContributions revenue a year currentMonth0).toOption.map
        (fun res => res.contributions.invalidite_deces))
        = some (revenue * (SOCIAL_CONTRIBUTION_RATES_2024 a).invalidite_deces)
    ∧ ((calculateSocialContributions revenue a year currentMonth0).toOption.map
        (fun res => res.contributions.csg_crds))
        = some (revenue * (SOCIAL_CONTRIBUTION_RATES_2024 a).csg_crds)
    ∧ ((calculateSocialContributions revenue a year currentMonth0).toOption.map
        (fun res => res.contributions.formation_professionnelle))
        = some (revenue * (SOCIAL_CONTRIBUTION_RATES_2024 a).formation_professionnelle)
    ∧ ((calculateSocialContributions revenue a year currentMonth0).toOption.map
        (fun res => res.contributions.total))
        = some (revenue * (SOCIAL_CONTRIBUTION_RATES_2024 a).total)
    ∧ ((calculateSocialContributions revenue a year currentMonth0).toOption.map
        (fun res => res.net_revenue))
        = some (revenue - revenue * (SOCIAL_CONTRIBUTION_RATES_2024 a).total)
    ∧ ((calculateSocialContributions revenue a year currentMonth0).toOption.map
        (fun res => sumComponents res.contributions))
        = some (revenue * sumComponentRates (SOCIAL_CONTRIBUTION_RATES_2024 a))
    ∧ sumComponentRates (SOCIAL_CONTRIBUTION_RATES_2024 a)
        ≠ (SOCIAL_CONTRIBUTION_RATES_2024 a).total := by
  unfold calculateSocialContributions
  rw [if_neg (not_lt.mpr h)]
  refine ⟨rfl, rfl, rfl, rfl, rfl, rfl, rfl, rfl, rfl, ?_, ?_⟩
  · simp only [Except.toOption, Option.map_some', Option.some.injEq,
      sumComponents, sumComponentRates]
    ring
  · cases a <;> norm_num [sumComponentRates, SOCIAL_CONTRIBUTION_RATES_2024]

theorem calculateSocialContributions_result_spec_witness :
    ((calculateSocialContributions 1000 .services 2024 0).toOption.map
        (fun res => res.contributions.total))
      = some (1000 * (SOCIAL_CONTRIBUTION_RATES_2024 .services).total) :=
  (calculateSocialContributions_result_spec 1000 .services 2024 0 (by norm_num)
    (by norm_num [FRANCHISE_THRESHOLDS_2024])).2.2.2.2.2.2.2.1

/-- C2: calculateSocialContributions fails exactly when revenue exceeds the
franchise threshold of the activity type (77700 for services and liberal,
188700 for commerce); the error names the threshold and the activity type;
in particular revenue 80000 for services raises the franchise error. -/
theorem calculateSocialContributions_franchise_check (revenue : ℚ)
    (a : ActivityType) (year currentMonth0 : ℕ) :
    ((calculateSocialContributions revenue a year currentMonth0).toOption = none
        ↔ FRANCHISE_THRESHOLDS_2024 a < revenue)
    ∧ (FRANCHISE_THRESHOLDS_2024 a < revenue →
        calculateSocialContributions revenue a year currentMonth0
          = .error { threshold := FRANCHISE_THRESHOLDS_2024 a, activity := a })
    ∧ FRANCHISE_THRESHOLDS_2024 .services = 77700
    ∧ FRANCHISE_THRESHOLDS_2024 .commerce = 188700
    ∧ FRANCHISE_THRESHOLDS_2024 .liberal = 77700
    ∧ calculateSocialContributions 80000 .services 2024 0
        = .error { threshold := 77700, activity := .services } := by
  refine ⟨?_, ?_, rfl, rfl, rfl, ?_⟩
  · by_cases hx : FRANCHISE_THRESHOLDS_2024 a < revenue
    · simp [calculateSocialContributions, Except.toOption, hx]
    · simp [calculateSocialContributions, Except.toOption, hx]
  · intro hx
    unfold calculateSocialContributions
    rw [if_pos hx]
  · unfold calculateSocialContributions
    rw [if_pos (by norm_num [FRANCHISE_THRESHOLDS_2024])]
    rfl

theorem calculateSocialContributions_franchise_check_witness :
    calculateSocialContributions 80000 .services 2024 0
      = .error { threshold := FRANCHISE_THRESHOLDS_2024 .services,
                 activity := .services } :=
  (calculateSocialContributions_franchise_check 80000 .services 2024 0).2.1
    (by norm_num [FRANCHISE_THRESHOLDS_2024])

/-- C8 counterexample: at revenue −100 for services,
calculateSocialContributions does not fail: it returns a result, contrary
to the claim that negative revenue raises an invalid-input error. -/
theorem calculateSocialContributions_negative_revenue_cex :
    (calculateSocialContributions (-100) .services 2024 0).toOption.isSome
      = true := by
  norm_num [calculateSocialContributions, FRANCHISE_THRESHOLDS_2024,
    Except.toOption]

/-- C8 (amended): the only input validation in calculateSocialContributions
is the franchise-threshold check; for every revenue < 0 it silently returns
a result whose total is revenue × the total rate (a negative amount). -/
theorem calculateSocialContributions_negative_revenue_result (revenue : ℚ)
    (a : ActivityType) (year currentMonth0 : ℕ) (h : revenue < 0) :
    ((calculateSocialContributions revenue a year currentMonth0).toOption.map
        (fun res => res.contributions.total))
      = some (revenue * (SOCIAL_CONTRIBUTION_RATES_2024 a).total) := by
  have hle : revenue ≤ FRANCHISE_THRESHOLDS_2024 a := by
    cases a <;> (simp only [FRANCHISE_THRESHOLDS_2024]; linarith)
  unfold calculateSocialContributions
  rw [if_neg (not_lt.mpr hle)]
  rfl

theorem calculateSocialContributions_negative_revenue_result_witness :
    ((calculateSocialContributions (-100) .services 2024 0).toOption.map
        (fun res => res.contributions.total))
      = some ((-100) * (SOCIAL_CONTRIBUTION_RATES_2024 .services).total) :=
  calculateSocialContributions_negative_revenue_result (-100) .services 2024 0
    (by norm_num)

/-- C5: for every revenue between 0 and the franchise threshold, every
activity type and every ACRE year, calculateContributionsWithACRE returns
the standard calculation with every component and the total scaled by
`(1 − reductionFactor)` where the reduction factor is 0.75, 0.50, 0.25 for
years 1, 2, 3, and net revenue recomputed as revenue minus the reduced
total; in particular in year 1 the reduced total is the standard total
times 0.25. -/
theorem calculateContributionsWithACRE_scales_standard (revenue : ℚ)
    (a : ActivityType) (ay : AcreYear) (year currentMonth0 : ℕ)
    (h0 : 0 ≤ revenue) (h : revenue ≤ FRANCHISE_THRESHOLDS_2024 a) :
    ((calculateContributionsWithACRE revenue a ay year currentMonth0).toOption.map
        (fun res => res.contributions.maladie))
        = ((calculateSocialContributions revenue a year currentMonth0).toOption.map
            (fun res => res.contributions.maladie * (1 - acreReductionRate ay)))
    ∧ ((calculateContributionsWithACRE revenue a ay year currentMonth0).toOption.map
        (fun res => res.contributions.retraite_base))
        = ((calculateSocialContributions revenue a year currentMonth0).toOption.map
            (fun res => res.contributions.retraite_base * (1 - acreReductionRate ay)))
    ∧ ((calculateContributionsWithACRE revenue a ay year currentMonth0).toOption.map
        (fun res => res.contributions.retraite_complementaire))
        = ((calculateSocialContributions revenue a year currentMonth0).toOption.map
            (fun res => res.contributions.retraite_complementaire * (1 - acreReductionRate ay)))
    ∧ ((calculateContributionsWithACRE revenue a ay year currentMonth0).toOption.map
        (fun res => res.contributions.invalidite_deces))
        = ((calculateSocialContributions revenue a year currentMonth0).toOption.map
            (fun res => res.contributions.invalidite_deces * (1 - acreReductionRate ay)))
    ∧ ((calculateContributionsWithACRE revenue a ay year currentMonth0).toOption.map
        (fun res => res.contributions.csg_crds))
        = ((calculateSocialContributions revenue a year currentMonth0).toOption.map
            (fun res => res.contributions.csg_crds * (1 - acreReductionRate ay)))
    ∧ ((calculateContributionsWithACRE revenue a ay year currentMonth0).toOption.map
        (fun res => res.contributions.formation_professionnelle))
        = ((calculateSocialContributions revenue a year currentMonth0).toOption.map
            (fun res => res.contributions.formation_professionnelle * (1 - acreReductionRate ay)))
    ∧ ((calculateContributionsWithACRE revenue a ay year currentMonth0).toOption.map
        (fun res => res.contributions.total))
        = ((calculateSocialContributions revenue a year currentMonth0).toOption.map
            (fun res => res.contributions.total * (1 - acreReductionRate ay)))
    ∧ ((calculateContributionsWithACRE revenue a ay year currentMonth0).toOption.map
        (fun res => res.net_revenue))
        = ((calculateSocialContributions revenue a year currentMonth0).toOption.map
            (fun res => revenue - res.contributions.total * (1 - acreReductionRate ay)))
    ∧ acreReductionRate .y1 = 0.75
    ∧ acreReductionRate .y2 = 0.50
    ∧ acreReductionRate .y3 = 0.25
    ∧ (ay = .y1 →
        ((calculateContributionsWithACRE revenue a ay year currentMonth0).toOption.map
            (fun res => res.contributions.total))
          = ((calculateSocialContributions revenue a year currentMonth0).toOption.map
              (fun res => res.contributions.total * 0.25))) := by
  have hnot : ¬ FRANCHISE_THRESHOLDS_2024 a < revenue := not_lt.mpr h
  refine ⟨?_, ?_, ?_, ?_, ?_, ?_, ?_, ?_, rfl, rfl, rfl, fun hy => ?_⟩
  all_goals try subst hy
  all_goals
    simp only [calculateContributionsWithACRE, calculateSocialContributions,
      if_neg hnot, Except.map, Except.toOption, Option.map_some',
      Option.some.injEq, acreReductionRate]
  all_goals norm_num

theorem calculateContributionsWithACRE_scales_standard_witness :
    ((calculateContributionsWithACRE 1000 .services .y1 2024 0).toOption.map
        (fun res => res.contributions.total))
      = ((calculateSocialContributions 1000 .services 2024 0).toOption.map
          (fun res => res.contributions.total * (1 - acreReductionRate .y1))) :=
  (calculateContributionsWithACRE_scales_standard 1000 .services .y1 2024 0
    (by norm_num) (by norm_num [FRANCHISE_THRESHOLDS_2024])).2.2.2.2.2.2.1

/-- C10: calculateContributionsWithACRE enforces the same franchise
threshold as the standard calculator: for every revenue above the threshold
and every ACRE year it propagates the franchise error, so ACRE never
permits a result above the threshold. -/
theorem calculateContributionsWithACRE_franchise_check (revenue : ℚ)
    (a : ActivityType) (ay : AcreYear) (year currentMonth0 : ℕ)
    (h : FRANCHISE_THRESHOLDS_2024 a < revenue) :
    calculateContributionsWithACRE revenue a ay year currentMonth0
      = .error { threshold := FRANCHISE_THRESHOLDS_2024 a, activity := a } := by
  simp only [calculateContributionsWithACRE, calculateSocialContributions,
    if_pos h, Except.map]

theorem calculateContributionsWithACRE_franchise_check_witness :
    calculateContributionsWithACRE 80000 .services .y1 2024 0
      = .error { threshold := FRANCHISE_THRESHOLDS_2024 .services,
                 activity := .services } :=
  calculateContributionsWithACRE_franchise_check 80000 .services .y1 2024 0
    (by norm_num [FRANCHISE_THRESHOLDS_2024])

/-- C6 counterexample: for a creation date of 2020-01-01 with ACRE already
claimed (so the eligible flag is false), checkACREEligibility returns no
expiryDate at all, contradicting the claim that the result always contains
expiryDate = creationDate + 3 years even when ineligible. -/
theorem checkACREEligibility_expiryDate_cex :
    (checkACREEligibility ⟨2020, 0, 1⟩ true ⟨2020, 0, 1⟩).eligible = false
    ∧ (checkACREEligibility ⟨2020, 0, 1⟩ true ⟨2020, 0, 1⟩).expiryDate
        = none := by
  exact ⟨rfl, rfl⟩

/-- C6 (amended): checkACREEligibility returns eligible iff ACRE was not
already claimed and today is at most creationDate + 3 years; the expiryDate
(and the reduced rate table) are present exactly when eligible is true, and
absent otherwise. -/
theorem checkACREEligibility_spec (creationDate : JSDate)
    (hasReceivedACRE : Bool) (today : JSDate) :
    (checkACREEligibility creationDate hasReceivedACRE today).eligible
        = (!hasReceivedACRE && JSDate.le today (creationDate.addYears 3))
    ∧ (checkACREEligibility creationDate hasReceivedACRE today).expiryDate
        = (if (!hasReceivedACRE && JSDate.le today (creationDate.addYears 3))
           then some (creationDate.addYears 3) else none)
    ∧ (checkACREEligibility creationDate hasReceivedACRE today).reducedRates
        = (if (!hasReceivedACRE && JSDate.le today (creationDate.addYears 3))
           then some acreReducedRates else none) := by
  cases hb : (!hasReceivedACRE && JSDate.le today (creationDate.addYears 3)) <;>
    simp [checkACREEligibility, hb]

theorem cfeBaseFromRevenue_le (revenue : ℚ) :
    cfeBaseFromRevenue revenue ≤ CFE_THRESHOLDS.maximum_base := by
  unfold cfeBaseFromRevenue
  split_ifs
  · exact min_le_right _ _
  · norm_num [CFE_THRESHOLDS]

/-- C7 counterexample: calculateCFE(40000, services, no surface) is not
exempt and yields base_amount 200 = 40000 × 0.005, which is BELOW the
minimum base 227, so the base is not clamped into
[minimum_base, maximum_base]. -/
theorem calculateCFE_base_below_minimum_cex :
    (calculateCFE 40000 .services defaultCommune none).base_amount = 200
    ∧ ¬ (CFE_THRESHOLDS.minimum_base
          ≤ (calculateCFE 40000 .services defaultCommune none).base_amount) := by
  constructor <;>
    norm_num [calculateCFE, CFE_THRESHOLDS, cfeBaseFromRevenue, min_def]

/-- C7 (amended): for every non-exempt input (revenue at or above 5000),
calculateCFE marks the result non-exempt, computes base_amount as
min(surface × 16, maximum_base) when a nonzero surface is supplied, else
min(revenue × 0.005, maximum_base) when revenue > 32600, else the
minimum base 227; the base never exceeds maximum_base but is NOT clamped
from below to minimum_base; total_cfe = base_amount × the 0.25 tax rate. -/
theorem calculateCFE_nonexempt_spec (revenue : ℚ) (a : ActivityType)
    (commune : String) (surfaceM2 : Option ℚ)
    (h : CFE_THRESHOLDS.exemption_revenue ≤ revenue) :
    (calculateCFE revenue a commune surfaceM2).is_exempt = false
    ∧ (∀ s0 : ℚ, surfaceM2 = some s0 → s0 ≠ 0 →
        (calculateCFE revenue a commune surfaceM2).base_amount
          = min (s0 * 16) CFE_THRESHOLDS.maximum_base)
    ∧ (surfaceM2 = none → 32600 < revenue →
        (calculateCFE revenue a commune surfaceM2).base_amount
          = min (revenue * 0.005) CFE_THRESHOLDS.maximum_base)
    ∧ (surfaceM2 = none → revenue ≤ 32600 →
        (calculateCFE revenue a commune surfaceM2).base_amount
          = CFE_THRESHOLDS.minimum_base)
    ∧ (calculateCFE revenue a commune surfaceM2).base_amount
        ≤ CFE_THRESHOLDS.maximum_base
    ∧ (calculateCFE revenue a commune surfaceM2).total_cfe
        = (calculateCFE revenue a commune surfaceM2).base_amount * 0.25 := by
  have hnot : ¬ revenue < CFE_THRESHOLDS.exemption_revenue := not_lt.mpr h
  refine ⟨?_, ?_, ?_, ?_, ?_, ?_⟩
  · simp [calculateCFE, hnot]
  · intro s0 hs hs0
    subst hs
    simp [calculateCFE, hnot, hs0]
  · intro hs hr
    subst hs
    simp [calculateCFE, hnot, cfeBaseFromRevenue, hr]
  · intro hs hr
    subst hs
    simp [calculateCFE, hnot, cfeBaseFromRevenue, not_lt.mpr hr]
  · rcases surfaceM2 with _ | s
    · simpa [calculateCFE, hnot] using cfeBaseFromRevenue_le revenue
    · by_cases hs0 : s = 0
      · subst hs0
        simpa [calculateCFE, hnot] using cfeBaseFromRevenue_le revenue
      · simp [calculateCFE, hnot, hs0]
  · simp [calculateCFE, hnot]

theorem calculateCFE_nonexempt_spec_witness :
    (calculateCFE 40000 .services defaultCommune none).base_amount
      = min ((40000 : ℚ) * 0.005) CFE_THRESHOLDS.maximum_base :=
  ((calculateCFE_nonexempt_spec 40000 .services defaultCommune none
      (by norm_num [CFE_THRESHOLDS])).2.2.1) rfl (by norm_num)

theorem jsDateDayZero_eval (y k : ℕ) (hk1 : 1 ≤ k) (hk2 : k ≤ 12) :
    jsDateDayZero y k
      = { year := y, month := k - 1, day := daysInMonth y (k - 1) } := by
  simp only [jsDateDayZero]
  have e : y * 12 + k - 1 = y * 12 + (k - 1) := by omega
  have hdiv : (y * 12 + (k - 1)) / 12 = y := by omega
  have hmod : (y * 12 + (k - 1)) % 12 = k - 1 := by omega
  rw [e, hdiv, hmod]

theorem jsDateDayZero_month13 (y : ℕ) :
    jsDateDayZero y 13 = { year := y + 1, month := 0, day := 31 } := by
  simp only [jsDateDayZero]
  have hdiv : (y * 12 + 13 - 1) / 12 = y + 1 := by omega
  have hmod : (y * 12 + 13 - 1) % 12 = 0 := by omega
  rw [hdiv, hmod]
  rfl

/-- C9: the due date of the quarterly declaration record is the last day of
the month following the quarter end: quarter 1 of year Y is due April 30 of
year Y, quarter 2 July 31, quarter 3 October 31, and quarter 4 is due
January 31 of year Y+1 (months are zero-based: 3 = April, 6 = July,
9 = October, 0 = January). -/
theorem saveQuarterlyDeclaration_dueDate_spec (year : ℕ)
    (calculation : SocialContributionCalculation) :
    (saveQuarterlyDeclarationRecord year 1 calculation).due_date
        = { year := year, month := 3, day := 30 }
    ∧ (saveQuarterlyDeclarationRecord year 2 calculation).due_date
        = { year := year, month := 6, day := 31 }
    ∧ (saveQuarterlyDeclarationRecord year 3 calculation).due_date
        = { year := year, month := 9, day := 31 }
    ∧ (saveQuarterlyDeclarationRecord year 4 calculation).due_date
        = { year := year + 1, month := 0, day := 31 } := by
  refine ⟨?_, ?_, ?_, ?_⟩
  · show jsDateDayZero year (1 * 3 + 1) = _
    rw [show 1 * 3 + 1 = 4 from rfl,
      jsDateDayZero_eval year 4 (by norm_num) (by norm_num)]
    rfl
  · show jsDateDayZero year (2 * 3 + 1) = _
    rw [show 2 * 3 + 1 = 7 from rfl,
      jsDateDayZero_eval year 7 (by norm_num) (by norm_num)]
    rfl
  · show jsDateDayZero year (3 * 3 + 1) = _
    rw [show 3 * 3 + 1 = 10 from rfl,
      jsDateDayZero_eval year 10 (by norm_num) (by norm_num)]
    rfl
  · show jsDateDayZero year (4 * 3 + 1) = _
    rw [show 4 * 3 + 1 = 13 from rfl, jsDateDayZero_month13 year]
